import Mathlib

/-!
Shallow embedding of the valuation engine of `src/player_value_app.py`
(class `PlayerValueEstimator` together with the module-level function
`get_recommendation`).

Numbers: the Python code computes with floats; the embedding uses `ℚ`
with the same literal constants.  Every constant below is copied from
the source.  Ages, horizons and years are small non-negative integers
in the application (the input form restricts age to 16..40), so ages
and horizons are embedded as `ℕ`; contract years are `ℤ`.

Fallible float()/int() conversions guarded by try/except in the source
are embedded with `Option`: `none` models a field whose conversion
raises, in which case the corresponding premium group contributes 0,
exactly as the except-branch does.
-/

namespace PlayerValue

/-- One entry of `age_peak_curves`: a per-position peak age and decline
rate (`player_value_app.py`, lines 57-62). -/
structure Curve where
  peak_age : ℕ
  decline_rate : ℚ
  deriving DecidableEq, Repr

/-- The dictionary `self.age_peak_curves` together with the
`.get(position, curves['Midfielder'])` fallback used at line 66:
unknown positions fall back to the Midfielder configuration. -/
def ageCurve (position : String) : Curve :=
  if position = "Attacker" then ⟨27, 0.08⟩
  else if position = "Midfielder" then ⟨28, 0.07⟩
  else if position = "Defender" then ⟨29, 0.06⟩
  else if position = "Goalkeeper" then ⟨31, 0.05⟩
  else ⟨28, 0.07⟩

/-- Body of `calculate_age_factor` (lines 64-85), with the curve already
looked up; `calculate_age_factor` below composes this with `ageCurve`.
`growth_rate = 0.15` is the literal constant of line 75/80. -/
def age_factor_core (current_age : ℕ) (curve : Curve) (years_ahead : ℕ) : ℚ :=
  let peak_age := curve.peak_age
  let decline_rate := curve.decline_rate
  let future_age := current_age + years_ahead
  if current_age < peak_age then
    if future_age ≤ peak_age then
      (1 + 0.15 : ℚ) ^ years_ahead
    else
      ((1 + 0.15 : ℚ) ^ (peak_age - current_age)) *
        ((1 - decline_rate) ^ (future_age - peak_age))
  else
    (1 - decline_rate) ^ (future_age - peak_age)

/-- `calculate_age_factor(current_age, position, years_ahead)`,
lines 64-85 of the source. -/
def calculate_age_factor (current_age : ℕ) (position : String) (years_ahead : ℕ) : ℚ :=
  age_factor_core current_age (ageCurve position) years_ahead

/-- The filtering of line 89: `[v for v in value_history if pd.notna(v) and v > 0]`.
`none` models a missing (NaN) entry. -/
def validValues : List (Option ℚ) → List ℚ
  | [] => []
  | none :: rest => validValues rest
  | some v :: rest => if 0 < v then v :: validValues rest else validValues rest

/-- The loop of lines 94-98: period-over-period growth rates of
consecutive values, each pair guarded by `values[i-1] > 0`. -/
def growthRates : List ℚ → List ℚ
  | a :: b :: rest =>
      (if 0 < a then [(b - a) / a] else []) ++ growthRates (b :: rest)
  | _ => []

/-- `calculate_momentum_factor(value_history)`, lines 87-118.
`avg` is `np.mean(growth_rates)`, `recent` is `growth_rates[-1] if
growth_rates else 0` (the list is non-empty on that path, and
`getLast?.getD 0` returns exactly the last element there). -/
def calculate_momentum_factor (value_history : List (Option ℚ)) : ℚ :=
  let values := validValues value_history
  if values.length < 2 then 1.0
  else
    let growth_rates := growthRates values
    if growth_rates = [] then 1.0
    else
      let avg_growth := growth_rates.sum / (growth_rates.length : ℚ)
      let recent_growth := growth_rates.getLast?.getD 0
      let weighted_growth := 0.6 * recent_growth + 0.4 * avg_growth
      if 0.3 < weighted_growth then 1.5
      else if 0.2 < weighted_growth then 1.35
      else if 0.1 < weighted_growth then 1.2
      else if 0 < weighted_growth then 1.1
      else if -0.1 < weighted_growth then 1.0
      else 0.85

/-- The player record handed to the estimator (the dict built at
lines 420-431).  `goals`, `assists` and `contract_expires` are `Option`:
`none` models a value whose float()/int() conversion raises, which the
source catches at lines 161-162 and 176-177. -/
structure PlayerData where
  name : String
  age : ℕ
  position : String
  current_value : ℚ
  value_history : List (Option ℚ)
  league : String
  contract_expires : Option ℤ
  goals : Option ℚ
  assists : Option ℚ
  deriving DecidableEq, Repr

/-- League premium group of `calculate_premium_factor` (lines 124-138). -/
def leaguePremium (league : String) : ℚ :=
  if league ∈ ["Premier League"] then 0.15
  else if league ∈ ["La Liga", "Bundesliga", "Serie A"] then 0.12
  else if league ∈ ["Ligue 1", "Primeira Liga", "Eredivisie"] then 0.08
  else 0.02

/-- Age premium group (lines 140-147). -/
def agePremium (age : ℕ) : ℚ :=
  if age < 23 then 0.25
  else if age < 25 then 0.15
  else if age < 27 then 0.05
  else 0

/-- Performance premium group (lines 149-162): `goals + assists` against
a three-step ladder; if either float() conversion raises (`none`), the
whole group contributes 0 (the except-branch). -/
def performancePremium (goals assists : Option ℚ) : ℚ :=
  match goals, assists with
  | some g, some a =>
      let total_contributions := g + a
      if 20 < total_contributions then 0.20
      else if 10 < total_contributions then 0.12
      else if 5 < total_contributions then 0.06
      else 0
  | _, _ => 0

/-- Contract premium group (lines 164-177): years remaining relative to
the hard-coded `current_year = 2025`. -/
def contractPremium (contract_expires : Option ℤ) : ℚ :=
  match contract_expires with
  | some contract_year =>
      let years_remaining := contract_year - 2025
      if 4 ≤ years_remaining then 0.15
      else if 3 ≤ years_remaining then 0.10
      else if 2 ≤ years_remaining then 0.05
      else 0
  | none => 0

/-- `calculate_premium_factor(player_data)`, lines 120-179: starts from
1.0 and adds each group's contribution (the source accumulates with
`premium += ...`; addition is written out here group by group). -/
def calculate_premium_factor (p : PlayerData) : ℚ :=
  1.0 + leaguePremium p.league + agePremium p.age
      + performancePremium p.goals p.assists
      + contractPremium p.contract_expires

/-- Return value of `estimate_future_value` (the dict of lines 192-198). -/
structure Projection where
  projected_value : ℚ
  low_estimate : ℚ
  high_estimate : ℚ
  age_factor : ℚ
  momentum_factor : ℚ
  deriving DecidableEq, Repr

/-- `estimate_future_value(current_value, age, position, value_history,
years_ahead)`, lines 181-198. -/
def estimate_future_value (current_value : ℚ) (age : ℕ) (position : String)
    (value_history : List (Option ℚ)) (years_ahead : ℕ) : Projection :=
  let age_factor := calculate_age_factor age position years_ahead
  let momentum_factor := calculate_momentum_factor value_history
  let base_projection := current_value * age_factor * momentum_factor
  let uncertainty : ℚ := 0.15 + 0.05 * (years_ahead : ℚ)
  { projected_value := base_projection
    low_estimate := base_projection * (1 - uncertainty)
    high_estimate := base_projection * (1 + uncertainty * 1.5)
    age_factor := age_factor
    momentum_factor := momentum_factor }

/-- Return value of `analyze_player` (the dict of lines 223-238; the
raw `player_data` entry is dropped since it merely echoes the input). -/
structure Analysis where
  name : String
  age : ℕ
  position : String
  current_value : ℚ
  projection_1y : Projection
  projection_2y : Projection
  premium_factor : ℚ
  asking_price_now : ℚ
  asking_price_1y : ℚ
  asking_price_2y : ℚ
  minimum_now : ℚ
  minimum_2y : ℚ
  deriving DecidableEq, Repr

/-- `analyze_player(player_data)`, lines 200-238. -/
def analyze_player (p : PlayerData) : Analysis :=
  let projection_1y := estimate_future_value p.current_value p.age p.position p.value_history 1
  let projection_2y := estimate_future_value p.current_value p.age p.position p.value_history 2
  let premium := calculate_premium_factor p
  let asking_price_now := p.current_value * premium * 1.2
  let asking_price_1y := projection_1y.projected_value * premium
  let asking_price_2y := projection_2y.projected_value * premium
  { name := p.name
    age := p.age
    position := p.position
    current_value := p.current_value
    projection_1y := projection_1y
    projection_2y := projection_2y
    premium_factor := premium
    asking_price_now := asking_price_now
    asking_price_1y := asking_price_1y
    asking_price_2y := asking_price_2y
    minimum_now := asking_price_now * 0.85
    minimum_2y := asking_price_2y * 0.85 }

/-- `get_recommendation(analysis)`, lines 241-258: action, rationale
string and CSS class. -/
def get_recommendation (analysis : Analysis) : String × String × String :=
  let momentum := analysis.projection_2y.momentum_factor
  let age_factor := analysis.projection_2y.age_factor
  let age := analysis.age
  if 1.3 < momentum ∧ age < 24 then
    ("HOLD", "High potential, value rising rapidly", "hold")
  else if 1.15 < momentum ∧ 1.1 < age_factor then
    ("HOLD", "Good momentum and age trajectory", "hold")
  else if 30 < age ∧ momentum < 1.0 then
    ("SELL NOW", "Declining value window", "sell")
  else if momentum < 0.9 then
    ("SELL NOW", "Negative momentum", "sell")
  else if 27 ≤ age ∧ age ≤ 29 ∧ 1.0 < momentum then
    ("CONSIDER OFFERS", "At peak value", "consider")
  else
    ("EVALUATE", "Monitor performance", "consider")

/-- Index of the rung of the performance ladder (lines 155-160) that a
goals/assists pair lands on: 3 for more than 20 combined contributions,
2 for more than 10, 1 for more than 5, 0 otherwise (also 0 when either
conversion fails).  The premium contributed by the group is a function
of this index alone. -/
def performance_band (goals assists : Option ℚ) : ℕ :=
  match goals, assists with
  | some g, some a =>
      if 20 < g + a then 3
      else if 10 < g + a then 2
      else if 5 < g + a then 1
      else 0
  | _, _ => 0

/-- Concrete defender record used for claim C1: no goal contributions. -/
def c1_defender_base : PlayerData :=
  { name := "C1", age := 29, position := "Defender", current_value := 10,
    value_history := [], league := "Other", contract_expires := some 2027,
    goals := some 0, assists := some 0 }

/-- Concrete record of claim C3: Attacker, age 32, history [30, 28, 25],
contract expiring one year after the hard-coded reference year 2025. -/
def c3_player : PlayerData :=
  { name := "C3", age := 32, position := "Attacker", current_value := 25,
    value_history := [some 30, some 28, some 25], league := "Other",
    contract_expires := some 2026, goals := some 0, assists := some 0 }

/-- Concrete record with non-positive current value, used for claim C4. -/
def c4_player : PlayerData :=
  { name := "C4", age := 25, position := "Attacker", current_value := -5,
    value_history := [], league := "Other", contract_expires := some 2025,
    goals := some 0, assists := some 0 }

/-- Concrete record used to witness claim C5. -/
def c5_player : PlayerData :=
  { name := "C5", age := 30, position := "Goalkeeper", current_value := 12,
    value_history := [some 10, some 12], league := "Serie A",
    contract_expires := some 2028, goals := some 0, assists := some 0 }

/-- Concrete record of claim C6: the young Premier League attacker. -/
def c6_player : PlayerData :=
  { name := "C6", age := 21, position := "Attacker", current_value := 25,
    value_history := [some 16, some 20, some 25], league := "Premier League",
    contract_expires := some 2029, goals := some 12, assists := some 6 }

/-- Concrete record used to witness claim C7. -/
def c7_player : PlayerData :=
  { name := "C7", age := 24, position := "Midfielder", current_value := 18,
    value_history := [some 15, some 18], league := "Ligue 1",
    contract_expires := some 2026, goals := some 3, assists := some 4 }

/-!  Helper lemmas about the embedded definitions.  -/

/-- Every curve the lookup can return has a decline rate in (0, 2/25]. -/
lemma ageCurve_decline_bounds (position : String) :
    0 < (ageCurve position).decline_rate ∧ (ageCurve position).decline_rate ≤ 2/25 := by
  unfold ageCurve
  split_ifs <;> norm_num

/-- The age factor is positive whenever the decline rate is below 1. -/
lemma age_factor_core_pos (age : ℕ) (c : Curve) (h : ℕ) (hd : c.decline_rate < 1) :
    0 < age_factor_core age c h := by
  have h1 : (0 : ℚ) < 1 - c.decline_rate := by linarith
  simp only [age_factor_core]
  split_ifs
  · positivity
  · exact mul_pos (pow_pos (by norm_num) _) (pow_pos h1 _)
  · exact pow_pos h1 _

/-- The age factor of the program is always positive. -/
lemma calculate_age_factor_pos (age : ℕ) (position : String) (h : ℕ) :
    0 < calculate_age_factor age position h := by
  have hb := ageCurve_decline_bounds position
  exact age_factor_core_pos age _ h (by linarith [hb.1, hb.2])

/-- Core inequality behind the widening of the uncertainty band: the
two-year age factor is at least 4/5 of the one-year age factor, for any
curve whose decline rate lies in [0, 2/25]. -/
lemma age_factor_core_two_ge (age : ℕ) (c : Curve)
    (_hd0 : 0 ≤ c.decline_rate) (hd : c.decline_rate ≤ 2/25) :
    4/5 * age_factor_core age c 1 ≤ age_factor_core age c 2 := by
  by_cases h1 : age < c.peak_age
  · have ha1 : age + 1 ≤ c.peak_age := h1
    have haf1 : age_factor_core age c 1 = (1 + 0.15 : ℚ) ^ 1 := by
      simp only [age_factor_core]
      rw [if_pos h1, if_pos ha1]
    by_cases h2 : age + 2 ≤ c.peak_age
    · have haf2 : age_factor_core age c 2 = (1 + 0.15 : ℚ) ^ 2 := by
        simp only [age_factor_core]
        rw [if_pos h1, if_pos h2]
      rw [haf1, haf2]; norm_num
    · have hp : c.peak_age = age + 1 := by omega
      have haf2 : age_factor_core age c 2
          = (1 + 0.15 : ℚ) ^ (c.peak_age - age)
            * (1 - c.decline_rate) ^ (age + 2 - c.peak_age) := by
        simp only [age_factor_core]
        rw [if_pos h1, if_neg h2]
      rw [haf1, haf2, hp]
      have e1 : age + 1 - age = 1 := by omega
      have e2 : age + 2 - (age + 1) = 1 := by omega
      rw [e1, e2, pow_one, pow_one]
      nlinarith
  · push_neg at h1
    have haf1 : age_factor_core age c 1 = (1 - c.decline_rate) ^ (age + 1 - c.peak_age) := by
      simp only [age_factor_core]
      rw [if_neg (by omega)]
    have haf2 : age_factor_core age c 2 = (1 - c.decline_rate) ^ (age + 2 - c.peak_age) := by
      simp only [age_factor_core]
      rw [if_neg (by omega)]
    have e : age + 2 - c.peak_age = (age + 1 - c.peak_age) + 1 := by omega
    rw [haf1, haf2, e, pow_succ]
    have hx : (0 : ℚ) ≤ (1 - c.decline_rate) ^ (age + 1 - c.peak_age) :=
      pow_nonneg (by linarith) _
    nlinarith

/-- The band-widening inequality for the program's age factor. -/
lemma calculate_age_factor_two_ge (age : ℕ) (position : String) :
    4/5 * calculate_age_factor age position 1 ≤ calculate_age_factor age position 2 := by
  have hb := ageCurve_decline_bounds position
  exact age_factor_core_two_ge age _ (le_of_lt hb.1) hb.2

/-- The momentum factor only ever takes one of the six branch constants. -/
lemma momentum_mem (value_history : List (Option ℚ)) :
    calculate_momentum_factor value_history = 1.5 ∨
    calculate_momentum_factor value_history = 1.35 ∨
    calculate_momentum_factor value_history = 1.2 ∨
    calculate_momentum_factor value_history = 1.1 ∨
    calculate_momentum_factor value_history = 1 ∨
    calculate_momentum_factor value_history = 0.85 := by
  simp only [calculate_momentum_factor]
  split_ifs <;> norm_num

/-- The momentum factor is positive. -/
lemma momentum_pos (value_history : List (Option ℚ)) :
    0 < calculate_momentum_factor value_history := by
  rcases momentum_mem value_history with h | h | h | h | h | h <;> rw [h] <;> norm_num

/-- The league group always contributes at least the baseline 0.02. -/
lemma leaguePremium_ge (league : String) : (1/50 : ℚ) ≤ leaguePremium league := by
  unfold leaguePremium
  split_ifs <;> norm_num

/-- The age group never subtracts. -/
lemma agePremium_nonneg (age : ℕ) : (0 : ℚ) ≤ agePremium age := by
  unfold agePremium
  split_ifs <;> norm_num

/-- The performance group never subtracts. -/
lemma performancePremium_nonneg (goals assists : Option ℚ) :
    (0 : ℚ) ≤ performancePremium goals assists := by
  rcases goals with _ | g
  · norm_num [performancePremium]
  rcases assists with _ | a
  · norm_num [performancePremium]
  simp only [performancePremium]
  split_ifs <;> norm_num

/-- The contract group never subtracts. -/
lemma contractPremium_nonneg (contract_expires : Option ℤ) :
    (0 : ℚ) ≤ contractPremium contract_expires := by
  rcases contract_expires with _ | y
  · norm_num [contractPremium]
  simp only [contractPremium]
  split_ifs <;> norm_num

/-- The premium factor is at least 1.02, hence positive. -/
lemma calculate_premium_factor_ge (p : PlayerData) :
    (51/50 : ℚ) ≤ calculate_premium_factor p := by
  have h1 := leaguePremium_ge p.league
  have h2 := agePremium_nonneg p.age
  have h3 := performancePremium_nonneg p.goals p.assists
  have h4 := contractPremium_nonneg p.contract_expires
  unfold calculate_premium_factor
  norm_num
  linarith

/-- Positivity of the premium factor. -/
lemma calculate_premium_factor_pos (p : PlayerData) :
    0 < calculate_premium_factor p := by
  have := calculate_premium_factor_ge p
  linarith

/-- The performance premium is a function of the ladder rung alone. -/
lemma performancePremium_eq_of_band (g a g2 a2 : Option ℚ)
    (h : performance_band g a = performance_band g2 a2) :
    performancePremium g a = performancePremium g2 a2 := by
  rcases g with _ | g <;> rcases a with _ | a <;>
    rcases g2 with _ | g2 <;> rcases a2 with _ | a2 <;>
    simp only [performance_band, performancePremium] at h ⊢ <;>
    split_ifs at h ⊢ <;> first | rfl | omega

/-- Growth rates of an all-equal list are all zero. -/
lemma growthRates_all_zero (c : ℚ) :
    ∀ l : List ℚ, (∀ x ∈ l, x = c) → ∀ r ∈ growthRates l, r = 0 := by
  intro l
  induction l with
  | nil => intro _ r hr; simp [growthRates] at hr
  | cons a t ih =>
    intro hall r hr
    match t, hr with
    | [], hr => simp [growthRates] at hr
    | b :: rest, hr =>
      have ha : a = c := hall a (by simp)
      have hb : b = c := hall b (by simp)
      simp only [growthRates, List.mem_append] at hr
      rcases hr with hr | hr
      · subst ha; subst hb
        split_ifs at hr with h0
        · simp at hr
          rw [hr]
        · simp at hr
      · exact ih (fun x hx => hall x (by simp [hx])) r hr

/-- Sum of a list of zeros. -/
lemma list_sum_zero : ∀ l : List ℚ, (∀ x ∈ l, x = 0) → l.sum = 0 := by
  intro l
  induction l with
  | nil => intro _; simp
  | cons a t ih =>
    intro hall
    simp only [List.sum_cons, hall a (by simp), ih (fun x hx => hall x (by simp [hx])), add_zero]

/-- Field equations for `estimate_future_value`. -/
lemma efv_projected_value (cv : ℚ) (age : ℕ) (position : String)
    (vh : List (Option ℚ)) (h : ℕ) :
    (estimate_future_value cv age position vh h).projected_value
      = cv * calculate_age_factor age position h * calculate_momentum_factor vh := rfl

/-- Low estimate in terms of the base projection. -/
lemma efv_low_estimate (cv : ℚ) (age : ℕ) (position : String)
    (vh : List (Option ℚ)) (h : ℕ) :
    (estimate_future_value cv age position vh h).low_estimate
      = cv * calculate_age_factor age position h * calculate_momentum_factor vh
          * (1 - (0.15 + 0.05 * (h : ℚ))) := rfl

/-- High estimate in terms of the base projection. -/
lemma efv_high_estimate (cv : ℚ) (age : ℕ) (position : String)
    (vh : List (Option ℚ)) (h : ℕ) :
    (estimate_future_value cv age position vh h).high_estimate
      = cv * calculate_age_factor age position h * calculate_momentum_factor vh
          * (1 + (0.15 + 0.05 * (h : ℚ)) * 1.5) := rfl

/-- Field equations for `analyze_player`. -/
lemma analyze_projection_2y (p : PlayerData) :
    (analyze_player p).projection_2y
      = estimate_future_value p.current_value p.age p.position p.value_history 2 := rfl

/-- The 1-year projection field. -/
lemma analyze_projection_1y (p : PlayerData) :
    (analyze_player p).projection_1y
      = estimate_future_value p.current_value p.age p.position p.value_history 1 := rfl

/-- The immediate asking price field. -/
lemma analyze_asking_now (p : PlayerData) :
    (analyze_player p).asking_price_now
      = p.current_value * calculate_premium_factor p * 1.2 := rfl

/-- The immediate minimum price field. -/
lemma analyze_minimum_now (p : PlayerData) :
    (analyze_player p).minimum_now
      = p.current_value * calculate_premium_factor p * 1.2 * 0.85 := rfl

/-- The two-year asking price field. -/
lemma analyze_asking_2y (p : PlayerData) :
    (analyze_player p).asking_price_2y
      = (estimate_future_value p.current_value p.age p.position p.value_history 2).projected_value
          * calculate_premium_factor p := rfl

/-- The two-year minimum price field. -/
lemma analyze_minimum_2y (p : PlayerData) :
    (analyze_player p).minimum_2y
      = (estimate_future_value p.current_value p.age p.position p.value_history 2).projected_value
          * calculate_premium_factor p * 0.85 := rfl

/-!  Claim theorems.  -/

/-- C1 (counterexample): the claim that a Defender's premium factor is
invariant under goals/assists fails on the code — `calculate_premium_factor`
never inspects the position, so the performance premium applies to
Defenders too.  Two Defender records identical except for `goals`
(0 versus 12) get premium factors 1.07 and 1.19. -/
theorem c1_counterexample :
    c1_defender_base.position = "Defender" ∧
    ({ c1_defender_base with goals := some 12 } : PlayerData).position = "Defender" ∧
    calculate_premium_factor c1_defender_base
      ≠ calculate_premium_factor { c1_defender_base with goals := some 12 } := by
  refine ⟨rfl, rfl, ?_⟩
  norm_num +decide [calculate_premium_factor, c1_defender_base, leaguePremium,
    agePremium, performancePremium, contractPremium]

/-- C1 (amended): the premium factor of two Defender records that agree
on league, age and contract and whose goals/assists land on the same
rung of the performance ladder is equal; invariance under goals/assists
holds only within a rung, because the performance premium is applied to
every position, Defender included. -/
theorem c1_defender_premium_band_invariant (p q : PlayerData)
    (_hp : p.position = "Defender") (_hq : q.position = "Defender")
    (hleague : p.league = q.league) (hage : p.age = q.age)
    (hcontract : p.contract_expires = q.contract_expires)
    (hband : performance_band p.goals p.assists = performance_band q.goals q.assists) :
    calculate_premium_factor p = calculate_premium_factor q := by
  unfold calculate_premium_factor
  rw [hleague, hage, hcontract, performancePremium_eq_of_band _ _ _ _ hband]

/-- C1 (witness): the amended invariance at two concrete Defender
records whose contribution totals 1 and 2 share the lowest rung. -/
theorem c1_defender_premium_band_invariant_witness :
    calculate_premium_factor { c1_defender_base with goals := some 1 }
      = calculate_premium_factor { c1_defender_base with goals := some 2 } :=
  c1_defender_premium_band_invariant _ _ rfl rfl rfl rfl rfl
    (by norm_num [performance_band, c1_defender_base])

/-- C2 (counterexample): at horizon 0 the age factor is not 1 for a
player already past peak age: an Attacker aged 30 gets
`(1 - 0.08) ^ (30 - 27) = 12167/15625 ≠ 1`. -/
theorem c2_counterexample :
    calculate_age_factor 30 "Attacker" 0 = 12167/15625 ∧
    calculate_age_factor 30 "Attacker" 0 ≠ 1 := by
  norm_num +decide [calculate_age_factor, age_factor_core, ageCurve]

/-- C2 (amended): `calculate_age_factor(age, position, 0)` equals 1
exactly on the growth side of the curve — for every position (including
unmapped ones, which fall back to the Midfielder configuration) and
every age strictly below the position's peak age.  At or past the peak
age the horizon-0 factor is `(1 - decline_rate) ^ (age - peak_age)`,
which is below 1 once age exceeds the peak. -/
theorem c2_age_factor_horizon_zero (position : String) (age : ℕ) :
    (age < (ageCurve position).peak_age → calculate_age_factor age position 0 = 1) ∧
    ((ageCurve position).peak_age ≤ age →
      calculate_age_factor age position 0
        = (1 - (ageCurve position).decline_rate) ^ (age - (ageCurve position).peak_age)) := by
  constructor
  · intro h
    simp only [calculate_age_factor, age_factor_core]
    rw [if_pos h, if_pos (by omega : age + 0 ≤ (ageCurve position).peak_age)]
    norm_num
  · intro h
    simp only [calculate_age_factor, age_factor_core]
    rw [if_neg (by omega : ¬ age < (ageCurve position).peak_age)]
    have e : age + 0 - (ageCurve position).peak_age = age - (ageCurve position).peak_age := by
      omega
    rw [e]

/-- C2 (witness): the amended statement at ages 20 (growth side) and 30
(decline side) of an Attacker. -/
theorem c2_age_factor_horizon_zero_witness :
    calculate_age_factor 20 "Attacker" 0 = 1 ∧
    calculate_age_factor 30 "Attacker" 0
      = (1 - (ageCurve "Attacker").decline_rate) ^ (30 - (ageCurve "Attacker").peak_age) :=
  ⟨(c2_age_factor_horizon_zero "Attacker" 20).1 (by decide),
   (c2_age_factor_horizon_zero "Attacker" 30).2 (by decide)⟩

/-- C3 (counterexample): for the Attacker aged 32 with history
[30, 28, 25] and a contract expiring in 2026 the recommendation is not
a SELL action — `get_recommendation` never reads the contract, and the
momentum of that history is exactly the neutral 1.0 (its weighted
growth -52/525 just clears the -0.1 threshold), so no SELL branch
fires. -/
theorem c3_counterexample :
    (get_recommendation (analyze_player c3_player)).1 ≠ "SELL NOW" := by
  norm_num +decide [get_recommendation, analyze_player, estimate_future_value,
    calculate_age_factor, age_factor_core, ageCurve, calculate_momentum_factor,
    validValues, growthRates, List.cons_ne_nil, calculate_premium_factor,
    leaguePremium, agePremium, performancePremium, contractPremium, c3_player]

/-- C3 (amended): that record falls through every branch of
`get_recommendation` to the default, returning the EVALUATE action with
rationale "Monitor performance" — a rationale that mentions neither the
age condition nor the short contract (the procedure has no contract
input at all, and no branch concatenates rationales). -/
theorem c3_recommendation_evaluate :
    get_recommendation (analyze_player c3_player)
      = ("EVALUATE", "Monitor performance", "consider") := by
  norm_num +decide [get_recommendation, analyze_player, estimate_future_value,
    calculate_age_factor, age_factor_core, ageCurve, calculate_momentum_factor,
    validValues, growthRates, List.cons_ne_nil, calculate_premium_factor,
    leaguePremium, agePremium, performancePremium, contractPremium, c3_player]

/-- C4 (counterexample): `analyze_player` does not reject a record with
non-positive current value: on a record with current_value = -5 it
completes and returns ordinary numbers (asking price now -321/50,
two-year projection -529/80).  No guard on current_value exists in the
engine; only the input form (outside the engine) enforces a 0.1
minimum. -/
theorem c4_counterexample :
    c4_player.current_value ≤ 0 ∧
    (analyze_player c4_player).asking_price_now = -321/50 ∧
    (analyze_player c4_player).projection_2y.projected_value = -529/80 := by
  norm_num +decide [analyze_player, estimate_future_value,
    calculate_age_factor, age_factor_core, ageCurve, calculate_momentum_factor,
    validValues, growthRates, calculate_premium_factor,
    leaguePremium, agePremium, performancePremium, contractPremium, c4_player]

/-- C4 (amended): a record with current_value ≤ 0 is analyzed normally
rather than rejected; the analysis completes and yields numeric results,
which are non-positive because every multiplier is positive. -/
theorem c4_nonpositive_value_flows_through (p : PlayerData)
    (h : p.current_value ≤ 0) :
    (analyze_player p).projection_2y.projected_value ≤ 0 ∧
    (analyze_player p).asking_price_now ≤ 0 := by
  constructor
  · rw [analyze_projection_2y, efv_projected_value]
    have haf := calculate_age_factor_pos p.age p.position 2
    have hm := momentum_pos p.value_history
    calc p.current_value * calculate_age_factor p.age p.position 2
          * calculate_momentum_factor p.value_history
        = p.current_value * (calculate_age_factor p.age p.position 2
            * calculate_momentum_factor p.value_history) := by ring
      _ ≤ 0 := mul_nonpos_of_nonpos_of_nonneg h (by positivity)
  · rw [analyze_asking_now]
    have hprem := calculate_premium_factor_pos p
    calc p.current_value * calculate_premium_factor p * 1.2
        = p.current_value * (calculate_premium_factor p * 1.2) := by ring
      _ ≤ 0 := mul_nonpos_of_nonpos_of_nonneg h (by positivity)

/-- C4 (witness): the amended statement at the concrete record with
current_value = -5. -/
theorem c4_nonpositive_value_flows_through_witness :
    c4_player.current_value ≤ 0 ∧
    ((analyze_player c4_player).projection_2y.projected_value ≤ 0 ∧
     (analyze_player c4_player).asking_price_now ≤ 0) :=
  ⟨by norm_num [c4_player],
   c4_nonpositive_value_flows_through c4_player (by norm_num [c4_player])⟩

/-- C5 (confirmed): for every record with positive current value, both
the 1-year and 2-year projections satisfy
low_estimate ≤ projected_value ≤ high_estimate, and the band at horizon
2 is at least as wide as the band at horizon 1 (the widening 2.5 × 0.25
uncertainty at horizon 2 dominates the 2.5 × 0.2 at horizon 1 because
the age factor shrinks by at most a 0.92 decline step between the two
horizons). -/
theorem c5_uncertainty_band (p : PlayerData) (hcv : 0 < p.current_value) :
    ((analyze_player p).projection_1y.low_estimate
        ≤ (analyze_player p).projection_1y.projected_value ∧
      (analyze_player p).projection_1y.projected_value
        ≤ (analyze_player p).projection_1y.high_estimate) ∧
    ((analyze_player p).projection_2y.low_estimate
        ≤ (analyze_player p).projection_2y.projected_value ∧
      (analyze_player p).projection_2y.projected_value
        ≤ (analyze_player p).projection_2y.high_estimate) ∧
    (analyze_player p).projection_1y.high_estimate
        - (analyze_player p).projection_1y.low_estimate
      ≤ (analyze_player p).projection_2y.high_estimate
        - (analyze_player p).projection_2y.low_estimate := by
  rw [analyze_projection_1y, analyze_projection_2y,
    efv_low_estimate, efv_low_estimate, efv_high_estimate, efv_high_estimate,
    efv_projected_value, efv_projected_value]
  have haf1 := calculate_age_factor_pos p.age p.position 1
  have haf2 := calculate_age_factor_pos p.age p.position 2
  have hm := momentum_pos p.value_history
  have hgrow := calculate_age_factor_two_ge p.age p.position
  have hb1 : 0 ≤ p.current_value * calculate_age_factor p.age p.position 1
      * calculate_momentum_factor p.value_history := by positivity
  have hb2 : 0 ≤ p.current_value * calculate_age_factor p.age p.position 2
      * calculate_momentum_factor p.value_history := by positivity
  have hkey : 0 ≤ p.current_value * calculate_momentum_factor p.value_history
      * (calculate_age_factor p.age p.position 2
          - 4/5 * calculate_age_factor p.age p.position 1) := by
    have : 0 ≤ calculate_age_factor p.age p.position 2
        - 4/5 * calculate_age_factor p.age p.position 1 := by linarith
    positivity
  push_cast
  constructor
  · constructor <;> nlinarith
  constructor
  · constructor <;> nlinarith
  nlinarith

/-- C5 (witness): the band ordering at the concrete goalkeeper record. -/
theorem c5_uncertainty_band_witness :
    0 < c5_player.current_value ∧
    (((analyze_player c5_player).projection_1y.low_estimate
        ≤ (analyze_player c5_player).projection_1y.projected_value ∧
      (analyze_player c5_player).projection_1y.projected_value
        ≤ (analyze_player c5_player).projection_1y.high_estimate) ∧
    ((analyze_player c5_player).projection_2y.low_estimate
        ≤ (analyze_player c5_player).projection_2y.projected_value ∧
      (analyze_player c5_player).projection_2y.projected_value
        ≤ (analyze_player c5_player).projection_2y.high_estimate) ∧
    (analyze_player c5_player).projection_1y.high_estimate
        - (analyze_player c5_player).projection_1y.low_estimate
      ≤ (analyze_player c5_player).projection_2y.high_estimate
        - (analyze_player c5_player).projection_2y.low_estimate) :=
  ⟨by norm_num [c5_player], c5_uncertainty_band c5_player (by norm_num [c5_player])⟩

/-- C6 (confirmed): the young Premier League attacker scenario — age
factor at horizon 2 exceeds 1 (1.3225), momentum exceeds 1 (1.35),
premium exceeds 1.3 (1.67), and the recommendation is HOLD. -/
theorem c6_young_attacker_scenario :
    1 < (analyze_player c6_player).projection_2y.age_factor ∧
    1 < (analyze_player c6_player).projection_2y.momentum_factor ∧
    (13/10 : ℚ) < (analyze_player c6_player).premium_factor ∧
    (get_recommendation (analyze_player c6_player)).1 = "HOLD" := by
  norm_num +decide [get_recommendation, analyze_player, estimate_future_value,
    calculate_age_factor, age_factor_core, ageCurve, calculate_momentum_factor,
    validValues, growthRates, List.cons_ne_nil, calculate_premium_factor,
    leaguePremium, agePremium, performancePremium, contractPremium, c6_player]

/-- C7 (confirmed): with positive current value and positive two-year
projection, each minimum price is strictly below the corresponding
asking price — the minimum is the asking price times the retention
factor 0.85 < 1, and both asking prices are positive. -/
theorem c7_minimum_below_asking (p : PlayerData) (hcv : 0 < p.current_value)
    (hproj : 0 < (analyze_player p).projection_2y.projected_value) :
    (analyze_player p).minimum_now < (analyze_player p).asking_price_now ∧
    (analyze_player p).minimum_2y < (analyze_player p).asking_price_2y := by
  have hprem := calculate_premium_factor_pos p
  rw [analyze_projection_2y] at hproj
  constructor
  · rw [analyze_minimum_now, analyze_asking_now]
    nlinarith
  · rw [analyze_minimum_2y, analyze_asking_2y]
    nlinarith

/-- C7 (witness): both strict inequalities at the concrete midfielder
record. -/
theorem c7_minimum_below_asking_witness :
    (0 < c7_player.current_value ∧
      0 < (analyze_player c7_player).projection_2y.projected_value) ∧
    ((analyze_player c7_player).minimum_now < (analyze_player c7_player).asking_price_now ∧
     (analyze_player c7_player).minimum_2y < (analyze_player c7_player).asking_price_2y) := by
  have hproj : 0 < (analyze_player c7_player).projection_2y.projected_value := by
    norm_num +decide [analyze_player, estimate_future_value,
      calculate_age_factor, age_factor_core, ageCurve, calculate_momentum_factor,
      validValues, growthRates, List.cons_ne_nil, calculate_premium_factor,
      leaguePremium, agePremium, performancePremium, contractPremium, c7_player]
  exact ⟨⟨by norm_num [c7_player], hproj⟩,
    c7_minimum_below_asking c7_player (by norm_num [c7_player]) hproj⟩

/-- C8 (confirmed): the momentum factor is exactly 1 whenever fewer
than 2 values survive the positivity/missingness filter (in particular
for empty and single-element histories), and also whenever all
surviving values are equal (every growth rate is then 0, so the
weighted growth 0 falls in the neutral band). -/
theorem c8_momentum_neutral (value_history : List (Option ℚ)) :
    ((validValues value_history).length < 2 →
      calculate_momentum_factor value_history = 1) ∧
    ((∃ c : ℚ, ∀ v ∈ validValues value_history, v = c) →
      calculate_momentum_factor value_history = 1) := by
  constructor
  · intro h
    simp only [calculate_momentum_factor]
    rw [if_pos h]
    norm_num
  · rintro ⟨c, hc⟩
    by_cases hlen : (validValues value_history).length < 2
    · simp only [calculate_momentum_factor]
      rw [if_pos hlen]
      norm_num
    · simp only [calculate_momentum_factor]
      rw [if_neg hlen]
      by_cases hgs : growthRates (validValues value_history) = []
      · rw [if_pos hgs]
        norm_num
      · rw [if_neg hgs]
        have hz : ∀ r ∈ growthRates (validValues value_history), r = 0 :=
          growthRates_all_zero c _ hc
        have hsum : (growthRates (validValues value_history)).sum = 0 :=
          list_sum_zero _ hz
        have hrec : (growthRates (validValues value_history)).getLast?.getD 0 = 0 := by
          cases hgl : (growthRates (validValues value_history)).getLast? with
          | none => rfl
          | some x =>
            obtain ⟨hne, hxe⟩ :=
              List.mem_getLast?_eq_getLast
                (show x ∈ (growthRates (validValues value_history)).getLast? from hgl)
            have hx : x ∈ growthRates (validValues value_history) := by
              rw [hxe]
              exact List.getLast_mem hne
            simp [hz x hx]
        rw [hsum, hrec]
        norm_num

/-- C8 (witness): the neutral value at a single-element history and at
an all-equal history. -/
theorem c8_momentum_neutral_witness :
    calculate_momentum_factor [some 10] = 1 ∧
    calculate_momentum_factor [some 7, some 7, some 7] = 1 :=
  ⟨(c8_momentum_neutral [some 10]).1 (by norm_num [validValues]),
   (c8_momentum_neutral [some 7, some 7, some 7]).2 ⟨7, by norm_num [validValues]⟩⟩

/-- C9 (confirmed): the age curve is continuous at the peak-age
boundary — for every position and every age strictly below its peak,
the factor at the horizon reaching exactly the peak age equals the
grow-then-decline split formula with zero years past peak, and both
equal the pure growth factor `(1 + 0.15) ^ (peak_age - age)`. -/
theorem c9_age_curve_continuous (position : String) (age : ℕ)
    (h : age < (ageCurve position).peak_age) :
    calculate_age_factor age position ((ageCurve position).peak_age - age)
        = (1 + 0.15 : ℚ) ^ ((ageCurve position).peak_age - age)
          * (1 - (ageCurve position).decline_rate) ^ (0 : ℕ) ∧
    calculate_age_factor age position ((ageCurve position).peak_age - age)
        = (1 + 0.15 : ℚ) ^ ((ageCurve position).peak_age - age) := by
  have hgrow : calculate_age_factor age position ((ageCurve position).peak_age - age)
      = (1 + 0.15 : ℚ) ^ ((ageCurve position).peak_age - age) := by
    simp only [calculate_age_factor, age_factor_core]
    rw [if_pos h,
      if_pos (by omega : age + ((ageCurve position).peak_age - age)
        ≤ (ageCurve position).peak_age)]
  exact ⟨by rw [hgrow, pow_zero, mul_one], hgrow⟩

/-- C9 (witness): the boundary equality for a 25-year-old goalkeeper
(peak age 31, horizon 6). -/
theorem c9_age_curve_continuous_witness :
    calculate_age_factor 25 "Goalkeeper" ((ageCurve "Goalkeeper").peak_age - 25)
        = (1 + 0.15 : ℚ) ^ ((ageCurve "Goalkeeper").peak_age - 25)
          * (1 - (ageCurve "Goalkeeper").decline_rate) ^ (0 : ℕ) ∧
    calculate_age_factor 25 "Goalkeeper" ((ageCurve "Goalkeeper").peak_age - 25)
        = (1 + 0.15 : ℚ) ^ ((ageCurve "Goalkeeper").peak_age - 25) :=
  c9_age_curve_continuous "Goalkeeper" 25 (by decide)

/-- C10 (confirmed): for every input history the momentum factor is one
of the six branch constants 1.5, 1.35, 1.2, 1.1, 1.0, 0.85, and hence
always lies in the closed interval [0.85, 1.5]. -/
theorem c10_momentum_range (value_history : List (Option ℚ)) :
    (calculate_momentum_factor value_history = 1.5 ∨
     calculate_momentum_factor value_history = 1.35 ∨
     calculate_momentum_factor value_history = 1.2 ∨
     calculate_momentum_factor value_history = 1.1 ∨
     calculate_momentum_factor value_history = 1 ∨
     calculate_momentum_factor value_history = 0.85) ∧
    (0.85 : ℚ) ≤ calculate_momentum_factor value_history ∧
    calculate_momentum_factor value_history ≤ 1.5 := by
  refine ⟨momentum_mem value_history, ?_, ?_⟩ <;>
    rcases momentum_mem value_history with h | h | h | h | h | h <;>
    rw [h] <;> norm_num

end PlayerValue
